import Mathlib

/-!
Verification of the self-signed TLS identity subsystem of the repository
spraints/improved-engine.

The code under verification is the certificate handling in
src/go/server/main.go (functions getCerts, generateKey, generateCert; the
same code appears verbatim in src/unnamed/part_000) and the SAN-aware
variant in src/unnamed/part_001 (functions generateCerts and certExists).

The embedding is shallow: Go values become Lean records, the filesystem
becomes an explicit state value threaded through the functions, fallible
operations return Except, and the nondeterministic environment (randomness,
clock, and which system calls fail) is captured by a GenEnv record passed
in.  PEM/DER encodings are modeled algebraically by an injective
FileContent type: two file contents are byte-for-byte equal exactly when
the FileContent values are equal.
-/

namespace ImprovedEngine

/-- Go errors are modeled by their message strings. -/
abbrev GoError := String

/-- A file path: filepath.Join dir base is modeled as the pair of the
directory and the base name. -/
structure Path where
  dir : String
  base : String
deriving DecidableEq

/-- An elliptic-curve private key (crypto/ecdsa), modeled by its private
scalar. -/
structure ECKey where
  d : Nat
deriving DecidableEq

/-- An elliptic-curve public key, modeled by the point identifier derived
from the private scalar. -/
structure ECPubKey where
  point : Nat
deriving DecidableEq

/-- Derivation of the public point from the private scalar.  Scalar
multiplication of the fixed base point is injective on the scalar range, so
it is modeled by the identity map on the scalar. -/
def derivePub (d : Nat) : ECPubKey := ⟨d⟩

/-- key.Public() in Go. -/
def ECKey.publicKey (k : ECKey) : ECPubKey := derivePub k.d

/-- A net.IP value, modeled by its bytes.  net.IPv4 builds the loopback
address used in the certificate template. -/
structure IPAddr where
  bytes : List Nat
deriving DecidableEq

/-- net.IPv4(a, b, c, d). -/
def ipv4 (a b c d : Nat) : IPAddr := ⟨[a, b, c, d]⟩

/-- Go time.Time at the granularity this code distinguishes: the calendar
year together with the minute within the year.  Add(-10*time.Minute) moves
the minute and AddDate(1, 0, 0) moves the year, which is exactly how the
two operations behave on the fields they touch. -/
structure GoTime where
  year : Int
  minute : Int
deriving DecidableEq

/-- t.Add(m * time.Minute). -/
def GoTime.addMinutes (t : GoTime) (m : Int) : GoTime :=
  { t with minute := t.minute + m }

/-- t.AddDate(y, 0, 0): the code only ever adds whole years. -/
def GoTime.addYears (t : GoTime) (y : Int) : GoTime :=
  { t with year := t.year + y }

/-- a.Before(b): lexicographic order on (year, minute). -/
def GoTime.before (a b : GoTime) : Bool :=
  decide (a.year < b.year) || (a.year == b.year && decide (a.minute < b.minute))

/-- An x509 certificate, with exactly the fields the template in
generateCert sets (src/go/server/main.go lines 139-154), plus the public
key and signing key that x509.CreateCertificate binds into the final
certificate. -/
structure Certificate where
  serialNumber : Nat
  organization : List String
  organizationalUnit : List String
  commonName : String
  notBefore : GoTime
  notAfter : GoTime
  keyUsageDigitalSignature : Bool
  extKeyUsageServerAuth : Bool
  basicConstraintsValid : Bool
  ipAddresses : List IPAddr
  dnsNames : List String
  pub : ECPubKey := ⟨0⟩
  signerD : Nat := 0
deriving DecidableEq

/-- File contents, modeled algebraically.  keyPEM k stands for the bytes
pem.EncodeToMemory(EC PRIVATE KEY block of MarshalECPrivateKey(k)); certPEM
c stands for the bytes pem.EncodeToMemory(CERTIFICATE block of the DER of
c); raw bs is an arbitrary byte string (raw [] is a zero-byte file);
appended base garbage is the bytes of base followed by the garbage bytes.
All four encodings are injective, so equality of FileContent values models
byte-for-byte equality of files. -/
inductive FileContent where
  | keyPEM (key : ECKey)
  | certPEM (cert : Certificate)
  | raw (bytes : List Nat)
  | appended (base : FileContent) (garbage : List Nat)
deriving DecidableEq

/-- A file on disk: its contents and its permission mode bits. -/
structure FileData where
  content : FileContent
  mode : Nat
deriving DecidableEq

/-- The filesystem: the set of existing directories and a map from paths
to files. -/
structure FS where
  dirs : List String
  files : List (Path × FileData)
deriving DecidableEq

/-- The empty filesystem. -/
def fsEmpty : FS := ⟨[], []⟩

/-- Lookup in the association list backing FS.files. -/
def findFile : List (Path × FileData) → Path → Option FileData
  | [], _ => none
  | (q, fd) :: rest, p => if q = p then some fd else findFile rest p

/-- The contents of the file at p, if present. -/
def FS.getFile (fs : FS) (p : Path) : Option FileData :=
  findFile fs.files p

/-- Whether the directory d exists. -/
def FS.hasDir (fs : FS) (d : String) : Bool :=
  fs.dirs.contains d

/-- Removal of the entry at a path from the association list backing
FS.files. -/
def eraseFile : List (Path × FileData) → Path → List (Path × FileData)
  | [], _ => []
  | (q, fd) :: rest, p =>
    if q = p then eraseFile rest p else (q, fd) :: eraseFile rest p

/-- os.WriteFile: creates or replaces the file at p. -/
def FS.setFile (fs : FS) (p : Path) (fd : FileData) : FS :=
  { fs with files := (p, fd) :: eraseFile fs.files p }

/-- os.Remove on a file path: deletes the file when present.  getCerts
discards the returned error, so only the state effect is modeled. -/
def FS.removeFile (fs : FS) (p : Path) : FS :=
  { fs with files := eraseFile fs.files p }

/-- The state effect of os.Mkdir(d, 0755): creates d when it is absent and
creation is possible (canCreate models permission/parent failures); a
no-op otherwise. -/
def FS.mkdirFS (fs : FS) (d : String) (canCreate : Bool) : FS :=
  if fs.hasDir d then fs
  else if canCreate then { fs with dirs := d :: fs.dirs }
  else fs

/-- The error result of os.Mkdir(d, 0755): an error when d already exists
or when creation fails.  getCerts ignores this value. -/
def FS.mkdirErr (fs : FS) (d : String) (canCreate : Bool) : Option GoError :=
  if fs.hasDir d then some "mkdir: file exists"
  else if canCreate then none
  else some "mkdir: permission denied"

/-- The environment of one getCerts call: the outcomes of the random
source, the clock, and each fallible system call, fixed up front so the
embedded functions are pure. -/
structure GenEnv where
  keyGenResult : Except GoError ECKey
  marshalOk : Bool
  keyWriteOk : Bool
  serialRandOk : Bool
  serialEntropy : Nat
  signOk : Bool
  certWriteOk : Bool
  mkdirOk : Bool
  now : GoTime

/-- math.MaxInt64. -/
def maxInt64 : Nat := 2 ^ 63 - 1

/-- crypto/rand.Int(rand.Reader, n): a uniform value in the half-open
interval from 0 (inclusive) to n (exclusive).  The entropy consumed from
the reader is modeled as a natural number reduced modulo n, whose image is
exactly that interval. -/
def randInt (entropy n : Nat) : Nat := entropy % n

/-- The permission mode 0444 (octal) passed to os.WriteFile for both the
key file and the certificate file: 292 in decimal. -/
def mode0444 : Nat := 292

/-- The owner permission triad of a mode. -/
def ownerBits (m : Nat) : Nat := m / 64 % 8

/-- The group permission triad of a mode. -/
def groupBits (m : Nat) : Nat := m / 8 % 8

/-- The others permission triad of a mode. -/
def otherBits (m : Nat) : Nat := m % 8

/-- Whether a permission triad grants read access (bit 4). -/
def allowsRead (bits : Nat) : Bool := bits / 4 % 2 == 1

/-- Whether a permission triad grants write access (bit 2). -/
def allowsWrite (bits : Nat) : Bool := bits / 2 % 2 == 1

/-- The private key stored in a key file, recovered by parsing the PEM
block and unmarshaling the DER (the inverse of the injective encoding that
keyPEM stands for). -/
def parseKeyFile : FileContent → Option ECKey
  | FileContent.keyPEM k => some k
  | _ => none

/-- generateKey (src/go/server/main.go lines 110-131): generates an ECDSA
P-256 key, marshals it, PEM-encodes it and writes it to keyFile with mode
0444, returning the key.  Every error on this path is returned to the
caller.  The PEM length check of the source (len(keyPEM) < 1) is never
true because the PEM encoding of a block is nonempty, which the
FileContent model reflects by construction. -/
def generateKey (env : GenEnv) (keyFile : Path) (fs : FS) :
    Except GoError (ECKey × FS) :=
  match env.keyGenResult with
  | Except.error e => Except.error e
  | Except.ok key =>
    if !env.marshalOk then
      Except.error "failed to serialize private key for new certificate"
    else if env.keyWriteOk && fs.hasDir keyFile.dir then
      Except.ok (key, fs.setFile keyFile ⟨FileContent.keyPEM key, mode0444⟩)
    else
      Except.error "open server.key: write failed"

/-- The certificate template literal of generateCert
(src/go/server/main.go lines 139-154), as a function of the serial number
and the current time. -/
def certTemplate (serialNumber : Nat) (now : GoTime) : Certificate :=
  { serialNumber := serialNumber
    organization := ["Spraints"]
    organizationalUnit := ["Exp"]
    commonName := "localhost"
    notBefore := now.addMinutes (-10)
    notAfter := now.addYears 1
    keyUsageDigitalSignature := true
    extKeyUsageServerAuth := true
    basicConstraintsValid := false
    ipAddresses := [ipv4 127 0 0 1]
    dnsNames := [] }

/-- x509.CreateCertificate(rand.Reader, template, parent, pub, priv) for
the self-signed case parent = template: binds the subject public key and
the signing key into the certificate whose DER it produces. -/
def createCertificate (template : Certificate) (pub : ECPubKey)
    (priv : ECKey) : Certificate :=
  { template with pub := pub, signerD := priv.d }

/-- x509.ParseCertificate applied to DER bytes just produced by
CreateCertificate: recovers the encoded certificate. -/
def parseCertificate (c : Certificate) : Except GoError Certificate :=
  Except.ok c

/-- The certificate that generateCert builds for a given environment and
key: the template instantiated with the sampled serial number and the
clock, self-signed with the key. -/
def newCert (env : GenEnv) (key : ECKey) : Certificate :=
  createCertificate
    (certTemplate (randInt env.serialEntropy maxInt64) env.now)
    key.publicKey key

/-- generateCert (src/go/server/main.go lines 133-171): samples a serial
number below math.MaxInt64, fills in the template, self-signs it with key,
PEM-encodes the DER and writes it to certFile with mode 0444, then returns
the parse of the DER.  Every error on this path is returned to the caller.
As in generateKey, the PEM length check of the source is never true. -/
def generateCert (env : GenEnv) (certFile : Path) (key : ECKey) (fs : FS) :
    Except GoError (Certificate × FS) :=
  if !env.serialRandOk then
    Except.error "failed to generate random serial number"
  else
    let template := certTemplate (randInt env.serialEntropy maxInt64) env.now
    if !env.signOk then
      Except.error "failed to perform certificate generation"
    else
      let cert := createCertificate template key.publicKey key
      if env.certWriteOk && fs.hasDir certFile.dir then
        let fs2 := fs.setFile certFile ⟨FileContent.certPEM cert, mode0444⟩
        match parseCertificate cert with
        | Except.error e => Except.error e
        | Except.ok parsed => Except.ok (parsed, fs2)
      else
        Except.error "open server.crt: write failed"

/-- getCerts (src/go/server/main.go lines 89-108): joins the two paths,
calls os.Mkdir and discards its error, removes both files, then generates
and persists a fresh key and a fresh certificate, returning the two paths.
The errors of os.Mkdir and os.Remove are ignored by the source; the errors
of generateKey and generateCert propagate. -/
def getCerts (env : GenEnv) (dir : String) (fs : FS) :
    Except GoError (Path × Path × FS) :=
  let certFile : Path := ⟨dir, "server.crt"⟩
  let keyFile : Path := ⟨dir, "server.key"⟩
  let _mkdirError := fs.mkdirErr dir env.mkdirOk
  let fs1 := fs.mkdirFS dir env.mkdirOk
  let fs2 := fs1.removeFile certFile
  let fs3 := fs2.removeFile keyFile
  match generateKey env keyFile fs3 with
  | Except.error e => Except.error e
  | Except.ok (key, fs4) =>
    match generateCert env certFile key fs4 with
    | Except.error e => Except.error e
    | Except.ok (_, fs5) => Except.ok (certFile, keyFile, fs5)

/-- certExists (src/unnamed/part_001 lines 100-103): the body is a todo
stub that returns false for every input. -/
def certExists (cert key : Path) (extraSans : List String) : Bool :=
  false

/-- generateCerts (src/unnamed/part_001 lines 89-98): returns the two
paths when certExists reports an existing usable pair, and the error
"todo: generate certs" otherwise. -/
def generateCerts (dir : String) (extraSans : List String) :
    Except GoError (Path × Path) :=
  let certFile : Path := ⟨dir, "server.crt"⟩
  let certKey : Path := ⟨dir, "server.key"⟩
  if certExists certFile certKey extraSans then
    Except.ok (certFile, certKey)
  else
    Except.error "todo: generate certs"

/-- The identity request hard-wired into the server: the template requests
no DNS names. -/
def requestedDNSNames : List String := []

/-- The identity request hard-wired into the server: the template requests
the loopback IP address. -/
def requestedIPAddresses : List IPAddr := [ipv4 127 0 0 1]

/-- Whether an Except value is a success. -/
def isOkE {α : Type} : Except GoError α → Bool
  | Except.ok _ => true
  | Except.error _ => false

/-- The filesystem state after a getCerts call, and the unchanged state
when the call fails. -/
def fsAfter (env : GenEnv) (dir : String) (fs : FS) : FS :=
  match getCerts env dir fs with
  | Except.ok r => r.2.2
  | Except.error _ => fs

/-! ### Filesystem lemmas -/

theorem findFile_eraseFile_ne (l : List (Path × FileData)) (p q : Path)
    (hne : q ≠ p) :
    findFile (eraseFile l p) q = findFile l q := by
  induction l with
  | nil => rfl
  | cons e rest ih =>
    obtain ⟨e1, e2⟩ := e
    by_cases h : e1 = p
    · have hpq : ¬ (p = q) := fun hc => hne hc.symm
      simp [eraseFile, findFile, h, hpq, ih]
    · by_cases h2 : e1 = q
      · simp [eraseFile, findFile, h, h2, hne]
      · simp [eraseFile, findFile, h, h2, ih]

theorem findFile_eraseFile_same (l : List (Path × FileData)) (p : Path) :
    findFile (eraseFile l p) p = none := by
  induction l with
  | nil => rfl
  | cons e rest ih =>
    obtain ⟨e1, e2⟩ := e
    by_cases h : e1 = p
    · simpa [eraseFile, h] using ih
    · simpa [eraseFile, findFile, h] using ih

theorem getFile_setFile_same (fs : FS) (p : Path) (fd : FileData) :
    (fs.setFile p fd).getFile p = some fd := by
  simp [FS.setFile, FS.getFile, findFile]

theorem getFile_setFile_ne (fs : FS) (p q : Path) (fd : FileData)
    (h : q ≠ p) : (fs.setFile p fd).getFile q = fs.getFile q := by
  have hpq : ¬ (p = q) := fun hc => h hc.symm
  simp only [FS.setFile, FS.getFile, findFile, if_neg hpq]
  exact findFile_eraseFile_ne fs.files p q h

theorem getFile_removeFile_same (fs : FS) (p : Path) :
    (fs.removeFile p).getFile p = none := by
  simp only [FS.removeFile, FS.getFile]
  exact findFile_eraseFile_same fs.files p

theorem getFile_removeFile_ne (fs : FS) (p q : Path) (h : q ≠ p) :
    (fs.removeFile p).getFile q = fs.getFile q := by
  simp only [FS.removeFile, FS.getFile]
  exact findFile_eraseFile_ne fs.files p q h

theorem hasDir_setFile (fs : FS) (p : Path) (fd : FileData) (d : String) :
    (fs.setFile p fd).hasDir d = fs.hasDir d := rfl

theorem hasDir_removeFile (fs : FS) (p : Path) (d : String) :
    (fs.removeFile p).hasDir d = fs.hasDir d := rfl

theorem hasDir_mkdirFS (fs : FS) (d : String) (c : Bool) :
    (fs.mkdirFS d c).hasDir d = (fs.hasDir d || c) := by
  rw [FS.mkdirFS]
  cases h : fs.hasDir d with
  | true => simp [h]
  | false =>
    cases c with
    | true =>
      simp only [h, Bool.false_eq_true, if_false, if_true, Bool.false_or]
      simp [FS.hasDir, List.contains_cons]
    | false => simp [h]

/-- The two server file paths are distinct. -/
theorem crtPath_ne_keyPath (dir : String) :
    (⟨dir, "server.crt"⟩ : Path) ≠ ⟨dir, "server.key"⟩ := by
  intro h
  injection h with h1 h2
  exact absurd h2 (by decide)

/-! ### Characterization of getCerts -/

/-- The filesystem produced by a successful getCerts call: the directory
is ensured, both old files are removed, then the fresh key file and the
fresh certificate file are written with mode 0444. -/
def regenFS (env : GenEnv) (dir : String) (fs : FS) (key : ECKey) : FS :=
  ((((fs.mkdirFS dir env.mkdirOk).removeFile ⟨dir, "server.crt"⟩).removeFile
      ⟨dir, "server.key"⟩).setFile ⟨dir, "server.key"⟩
      ⟨FileContent.keyPEM key, mode0444⟩).setFile ⟨dir, "server.crt"⟩
      ⟨FileContent.certPEM (newCert env key), mode0444⟩

/-- When the environment lets every generation step succeed and the
directory exists or can be created, getCerts succeeds and produces exactly
the regenerated state. -/
theorem getCerts_ok (env : GenEnv) (dir : String) (fs : FS) (key : ECKey)
    (hk : env.keyGenResult = Except.ok key) (hm : env.marshalOk = true)
    (hw : env.keyWriteOk = true) (hs : env.serialRandOk = true)
    (hg : env.signOk = true) (hc : env.certWriteOk = true)
    (hd : (fs.hasDir dir || env.mkdirOk) = true) :
    getCerts env dir fs =
      Except.ok (⟨dir, "server.crt"⟩, ⟨dir, "server.key"⟩,
        regenFS env dir fs key) := by
  have hd1 : ((fs.mkdirFS dir env.mkdirOk).hasDir dir) = true := by
    rw [hasDir_mkdirFS]; exact hd
  simp [getCerts, generateKey, generateCert, hk, hm, hw, hs, hg, hc,
    hasDir_removeFile, hasDir_setFile, hd1, parseCertificate, regenFS,
    newCert]

/-- Inversion: a successful getCerts call returns the two joined paths and
the regenerated state for the freshly generated key. -/
theorem getCerts_ok_inv (env : GenEnv) (dir : String) (fs : FS)
    (cp kp : Path) (fs5 : FS)
    (h : getCerts env dir fs = Except.ok (cp, kp, fs5)) :
    ∃ key : ECKey, env.keyGenResult = Except.ok key ∧
      cp = ⟨dir, "server.crt"⟩ ∧ kp = ⟨dir, "server.key"⟩ ∧
      fs5 = regenFS env dir fs key := by
  revert h
  simp only [getCerts, generateKey, generateCert, parseCertificate]
  cases hk : env.keyGenResult with
  | error e => intro h; cases h
  | ok key =>
    cases hm : env.marshalOk with
    | false => intro h; simp at h
    | true =>
      simp only [Bool.not_true, Bool.false_eq_true, if_false, if_true,
        Bool.not_false]
      cases hw : (env.keyWriteOk &&
          (((fs.mkdirFS dir env.mkdirOk).removeFile
            ⟨dir, "server.crt"⟩).removeFile ⟨dir, "server.key"⟩).hasDir
            dir) with
      | false => intro h; simp at h
      | true =>
        simp only [if_true]
        cases hs : env.serialRandOk with
        | false => intro h; simp at h
        | true =>
          simp only [Bool.not_true, Bool.false_eq_true, if_false, if_true,
            Bool.not_false]
          cases hg : env.signOk with
          | false => intro h; simp at h
          | true =>
            simp only [Bool.not_true, Bool.false_eq_true, if_false,
              if_true, Bool.not_false]
            cases hc : (env.certWriteOk &&
                (((((fs.mkdirFS dir env.mkdirOk).removeFile
                  ⟨dir, "server.crt"⟩).removeFile
                  ⟨dir, "server.key"⟩).setFile ⟨dir, "server.key"⟩
                  ⟨FileContent.keyPEM key, mode0444⟩).hasDir dir)) with
            | false => intro h; simp at h
            | true =>
              simp only [if_true]
              intro h
              injection h with htup
              injection htup with h1 hrest
              injection hrest with h3 h4
              exact ⟨key, rfl, h1.symm, h3.symm, by rw [← h4]; rfl⟩

/-- The key file and the certificate file in the regenerated state. -/
theorem regenFS_getFiles (env : GenEnv) (dir : String) (fs : FS)
    (key : ECKey) :
    (regenFS env dir fs key).getFile ⟨dir, "server.key"⟩ =
      some ⟨FileContent.keyPEM key, mode0444⟩ ∧
    (regenFS env dir fs key).getFile ⟨dir, "server.crt"⟩ =
      some ⟨FileContent.certPEM (newCert env key), mode0444⟩ := by
  constructor
  · rw [regenFS, getFile_setFile_ne _ _ _ _ (crtPath_ne_keyPath dir).symm]
    exact getFile_setFile_same _ _ _
  · exact getFile_setFile_same _ _ _

/-- Inversion for generateCert: a successful call returns the certificate
built from the sampled serial, the clock and the given key, and writes its
PEM encoding with mode 0444. -/
theorem generateCert_ok_inv (env : GenEnv) (certFile : Path) (key : ECKey)
    (fs : FS) (cert : Certificate) (fs5 : FS)
    (h : generateCert env certFile key fs = Except.ok (cert, fs5)) :
    cert = newCert env key ∧
    fs5 = fs.setFile certFile
      ⟨FileContent.certPEM (newCert env key), mode0444⟩ := by
  revert h
  simp only [generateCert, parseCertificate]
  cases hs : env.serialRandOk with
  | false => intro h; simp at h
  | true =>
    simp only [Bool.not_true, Bool.false_eq_true, if_false, if_true,
      Bool.not_false]
    cases hg : env.signOk with
    | false => intro h; simp at h
    | true =>
      simp only [Bool.not_true, Bool.false_eq_true, if_false, if_true,
        Bool.not_false]
      cases hc : (env.certWriteOk && fs.hasDir certFile.dir) with
      | false => intro h; simp at h
      | true =>
        simp only [if_true]
        intro h
        injection h with htup
        injection htup with h1 h2
        exact ⟨h1.symm, by rw [← h2]; rfl⟩

/-! ### Concrete inputs used by witnesses and counterexamples -/

/-- An environment in which every generation step succeeds. -/
def goodEnv : GenEnv :=
  { keyGenResult := Except.ok ⟨1⟩
    marshalOk := true
    keyWriteOk := true
    serialRandOk := true
    serialEntropy := 5
    signOk := true
    certWriteOk := true
    mkdirOk := true
    now := ⟨2026, 100⟩ }

/-- A second all-success environment whose random source yields a
different key and different serial entropy. -/
def otherEnv : GenEnv :=
  { goodEnv with keyGenResult := Except.ok ⟨2⟩, serialEntropy := 7 }

/-- An environment whose key generation fails. -/
def envKeyGenFail : GenEnv :=
  { goodEnv with keyGenResult := Except.error "entropy source failed" }

/-- A filesystem containing only the certs directory. -/
def fsCertsDir : FS := ⟨["certs"], []⟩

/-- A certificate already on disk whose SAN sets cover the request. -/
def staleCert : Certificate := certTemplate 7 ⟨2025, 50⟩

/-- A state with a SAN-complete certificate but no key file. -/
def fsKeyMissing : FS :=
  ⟨["certs"],
    [(⟨"certs", "server.crt"⟩, ⟨FileContent.certPEM staleCert, mode0444⟩)]⟩

/-- A state whose certificate file has been truncated to zero bytes. -/
def fsCorrupt : FS :=
  ⟨["certs"],
    [(⟨"certs", "server.crt"⟩, ⟨FileContent.raw [], mode0444⟩),
     (⟨"certs", "server.key"⟩, ⟨FileContent.keyPEM ⟨9⟩, mode0444⟩)]⟩

/-- Whether a certificate file content is corrupted in one of the two ways
the claim describes: truncated to zero bytes, or a valid PEM block with
garbage bytes appended. -/
def corruptCert : FileContent → Bool
  | FileContent.raw bytes => bytes.isEmpty
  | FileContent.appended (FileContent.certPEM _) garbage => !garbage.isEmpty
  | _ => false

/-- Whether a natural number is a possible output of the serial-number
sampling in generateCert. -/
def serialAttainable (n : Nat) : Prop :=
  ∃ entropy, randInt entropy maxInt64 = n

/-! ### Claims -/

/-- C1: the claim states that a second ensure call with no intervening
filesystem change decides REUSE and leaves both files byte-for-byte
unchanged.  The code does the opposite: getCerts removes both files and
regenerates them on every call.  Concretely, after a successful first call
on an empty filesystem, a second call with fresh randomness succeeds,
returns the same paths, and replaces both the key file and the certificate
file with different bytes. -/
theorem c1_second_call_rewrites_both_files :
    isOkE (getCerts goodEnv "certs" fsEmpty) = true ∧
    isOkE (getCerts otherEnv "certs" (fsAfter goodEnv "certs" fsEmpty)) =
      true ∧
    (fsAfter goodEnv "certs" fsEmpty).getFile ⟨"certs", "server.key"⟩ ≠
      (fsAfter otherEnv "certs"
        (fsAfter goodEnv "certs" fsEmpty)).getFile
        ⟨"certs", "server.key"⟩ ∧
    (fsAfter goodEnv "certs" fsEmpty).getFile ⟨"certs", "server.crt"⟩ ≠
      (fsAfter otherEnv "certs"
        (fsAfter goodEnv "certs" fsEmpty)).getFile
        ⟨"certs", "server.crt"⟩ := by
  decide

/-- C2: a successful ensure against an empty directory produces a
certificate whose DNS SAN set contains every requested DNS name and whose
IP SAN set contains every requested IP address, and a key file whose
stored private key derives exactly the public key embedded in the
certificate.  The request the server code supports is the hard-wired one
(no DNS names, the loopback IP); the SAN-aware entry point generateCerts
never succeeds, so every identity request satisfies the conditional
property there vacuously. -/
theorem c2_fresh_identity_covers_request :
    (∀ (env : GenEnv) (dir : String) (cp kp : Path) (fs5 : FS),
      getCerts env dir fsEmpty = Except.ok (cp, kp, fs5) →
      ∃ (cert : Certificate) (key : ECKey) (fdk : FileData),
        fs5.getFile cp = some ⟨FileContent.certPEM cert, mode0444⟩ ∧
        fs5.getFile kp = some fdk ∧
        parseKeyFile fdk.content = some key ∧
        (∀ d ∈ requestedDNSNames, d ∈ cert.dnsNames) ∧
        (∀ ip ∈ requestedIPAddresses, ip ∈ cert.ipAddresses) ∧
        cert.pub = key.publicKey) ∧
    (∀ (dir : String) (extraSans : List String),
      isOkE (generateCerts dir extraSans) = false) := by
  constructor
  · intro env dir cp kp fs5 h
    obtain ⟨key, hk, hcp, hkp, hfs⟩ :=
      getCerts_ok_inv env dir fsEmpty cp kp fs5 h
    subst hcp; subst hkp; subst hfs
    obtain ⟨hkf, hcf⟩ := regenFS_getFiles env dir fsEmpty key
    refine ⟨newCert env key, key, ⟨FileContent.keyPEM key, mode0444⟩,
      hcf, hkf, rfl, ?_, ?_, rfl⟩
    · intro d hd
      exact absurd hd (by simp [requestedDNSNames])
    · intro ip hip
      have hip1 : ip = ipv4 127 0 0 1 := by
        simpa [requestedIPAddresses] using hip
      subst hip1
      simp [newCert, createCertificate, certTemplate]
  · intro dir extraSans
    rfl

/-- C2 witness: the property at a concrete all-success environment. -/
theorem c2_witness :
    getCerts goodEnv "certs" fsEmpty =
      Except.ok (⟨"certs", "server.crt"⟩, ⟨"certs", "server.key"⟩,
        fsAfter goodEnv "certs" fsEmpty) ∧
    (∃ (cert : Certificate) (key : ECKey) (fdk : FileData),
      (fsAfter goodEnv "certs" fsEmpty).getFile ⟨"certs", "server.crt"⟩ =
        some ⟨FileContent.certPEM cert, mode0444⟩ ∧
      (fsAfter goodEnv "certs" fsEmpty).getFile ⟨"certs", "server.key"⟩ =
        some fdk ∧
      parseKeyFile fdk.content = some key ∧
      (∀ d ∈ requestedDNSNames, d ∈ cert.dnsNames) ∧
      (∀ ip ∈ requestedIPAddresses, ip ∈ cert.ipAddresses) ∧
      cert.pub = key.publicKey) :=
  ⟨rfl, c2_fresh_identity_covers_request.1 goodEnv "certs"
    ⟨"certs", "server.crt"⟩ ⟨"certs", "server.key"⟩
    (fsAfter goodEnv "certs" fsEmpty) rfl⟩

/-- C3: when the key file is absent, even with a SAN-complete certificate
on disk, ensure regenerates: it succeeds (in an environment where
generation succeeds) and leaves both files holding the freshly generated
pair. -/
theorem c3_missing_key_forces_regenerate
    (env : GenEnv) (dir : String) (fs : FS) (key : ECKey)
    (cert : Certificate) (m : Nat)
    (hKeyAbsent : fs.getFile ⟨dir, "server.key"⟩ = none)
    (hCertPresent : fs.getFile ⟨dir, "server.crt"⟩ =
      some ⟨FileContent.certPEM cert, m⟩)
    (hDNS : ∀ d ∈ requestedDNSNames, d ∈ cert.dnsNames)
    (hIP : ∀ ip ∈ requestedIPAddresses, ip ∈ cert.ipAddresses)
    (hk : env.keyGenResult = Except.ok key) (hm : env.marshalOk = true)
    (hw : env.keyWriteOk = true) (hs : env.serialRandOk = true)
    (hg : env.signOk = true) (hc : env.certWriteOk = true)
    (hd : (fs.hasDir dir || env.mkdirOk) = true) :
    getCerts env dir fs =
      Except.ok (⟨dir, "server.crt"⟩, ⟨dir, "server.key"⟩,
        regenFS env dir fs key) ∧
    (regenFS env dir fs key).getFile ⟨dir, "server.key"⟩ =
      some ⟨FileContent.keyPEM key, mode0444⟩ ∧
    (regenFS env dir fs key).getFile ⟨dir, "server.crt"⟩ =
      some ⟨FileContent.certPEM (newCert env key), mode0444⟩ :=
  ⟨getCerts_ok env dir fs key hk hm hw hs hg hc hd,
    (regenFS_getFiles env dir fs key).1,
    (regenFS_getFiles env dir fs key).2⟩

/-- C3 witness: the property at the concrete state fsKeyMissing, whose
certificate is SAN-complete for the request while the key file is
absent. -/
theorem c3_witness :
    fsKeyMissing.getFile ⟨"certs", "server.key"⟩ = none ∧
    fsKeyMissing.getFile ⟨"certs", "server.crt"⟩ =
      some ⟨FileContent.certPEM staleCert, mode0444⟩ ∧
    (getCerts goodEnv "certs" fsKeyMissing =
      Except.ok (⟨"certs", "server.crt"⟩, ⟨"certs", "server.key"⟩,
        regenFS goodEnv "certs" fsKeyMissing ⟨1⟩) ∧
      (regenFS goodEnv "certs" fsKeyMissing ⟨1⟩).getFile
        ⟨"certs", "server.key"⟩ =
        some ⟨FileContent.keyPEM ⟨1⟩, mode0444⟩ ∧
      (regenFS goodEnv "certs" fsKeyMissing ⟨1⟩).getFile
        ⟨"certs", "server.crt"⟩ =
        some ⟨FileContent.certPEM (newCert goodEnv ⟨1⟩), mode0444⟩) :=
  ⟨by decide, by decide,
    c3_missing_key_forces_regenerate goodEnv "certs" fsKeyMissing ⟨1⟩
      staleCert mode0444 (by decide) (by decide)
      (by intro d hd; exact absurd hd (by simp [requestedDNSNames]))
      (by intro ip hip; exact hip)
      rfl rfl rfl rfl rfl rfl (by decide)⟩

/-- C4: with the certificate file corrupted (truncated to zero bytes, or
garbage appended after a valid PEM block), the next ensure call in a
healthy environment succeeds and regenerates the pair; no parse or load
error is propagated, because getCerts never reads the prior files at
all. -/
theorem c4_corrupt_cert_regenerates
    (env : GenEnv) (dir : String) (fs : FS) (key : ECKey) (fd : FileData)
    (hCert : fs.getFile ⟨dir, "server.crt"⟩ = some fd)
    (hCorrupt : corruptCert fd.content = true)
    (hk : env.keyGenResult = Except.ok key) (hm : env.marshalOk = true)
    (hw : env.keyWriteOk = true) (hs : env.serialRandOk = true)
    (hg : env.signOk = true) (hc : env.certWriteOk = true)
    (hd : (fs.hasDir dir || env.mkdirOk) = true) :
    isOkE (getCerts env dir fs) = true ∧
    getCerts env dir fs =
      Except.ok (⟨dir, "server.crt"⟩, ⟨dir, "server.key"⟩,
        regenFS env dir fs key) ∧
    (regenFS env dir fs key).getFile ⟨dir, "server.crt"⟩ =
      some ⟨FileContent.certPEM (newCert env key), mode0444⟩ ∧
    (regenFS env dir fs key).getFile ⟨dir, "server.key"⟩ =
      some ⟨FileContent.keyPEM key, mode0444⟩ := by
  have hok := getCerts_ok env dir fs key hk hm hw hs hg hc hd
  exact ⟨by rw [hok]; rfl, hok, (regenFS_getFiles env dir fs key).2,
    (regenFS_getFiles env dir fs key).1⟩

/-- C4 witness: the property at the concrete state fsCorrupt, whose
certificate file is a zero-byte file. -/
theorem c4_witness :
    fsCorrupt.getFile ⟨"certs", "server.crt"⟩ =
      some ⟨FileContent.raw [], mode0444⟩ ∧
    corruptCert (FileContent.raw []) = true ∧
    (isOkE (getCerts goodEnv "certs" fsCorrupt) = true ∧
      getCerts goodEnv "certs" fsCorrupt =
        Except.ok (⟨"certs", "server.crt"⟩, ⟨"certs", "server.key"⟩,
          regenFS goodEnv "certs" fsCorrupt ⟨1⟩) ∧
      (regenFS goodEnv "certs" fsCorrupt ⟨1⟩).getFile
        ⟨"certs", "server.crt"⟩ =
        some ⟨FileContent.certPEM (newCert goodEnv ⟨1⟩), mode0444⟩ ∧
      (regenFS goodEnv "certs" fsCorrupt ⟨1⟩).getFile
        ⟨"certs", "server.key"⟩ =
        some ⟨FileContent.keyPEM ⟨1⟩, mode0444⟩) :=
  ⟨by decide, by decide,
    c4_corrupt_cert_regenerates goodEnv "certs" fsCorrupt ⟨1⟩
      ⟨FileContent.raw [], mode0444⟩ (by decide) (by decide)
      rfl rfl rfl rfl rfl rfl (by decide)⟩

/-- C5 counterexample: the claim as stated says a mkdir failure is an
IOError that propagates out of ensure.  In the code the result of os.Mkdir
is discarded: here os.Mkdir fails (the directory already exists) and
getCerts nevertheless returns successfully. -/
theorem c5_counterexample_mkdir_failure_ignored :
    FS.mkdirErr fsCertsDir "certs" true = some "mkdir: file exists" ∧
    isOkE (getCerts goodEnv "certs" fsCertsDir) = true := by
  decide

/-- C5 (amended): every failure of key generation, key marshaling, the
key-file write, serial-number generation, certificate signing, or the
certificate-file write makes getCerts fail with that error; the error of
os.Mkdir, by contrast, is discarded and never propagates. -/
theorem c5_generation_errors_propagate
    (env : GenEnv) (dir : String) (fs : FS) :
    (∀ e : GoError, env.keyGenResult = Except.error e →
      getCerts env dir fs = Except.error e) ∧
    (∀ key : ECKey, env.keyGenResult = Except.ok key →
      env.marshalOk = false →
      getCerts env dir fs =
        Except.error "failed to serialize private key for new certificate") ∧
    (∀ key : ECKey, env.keyGenResult = Except.ok key →
      env.marshalOk = true → env.keyWriteOk = false →
      getCerts env dir fs = Except.error "open server.key: write failed") ∧
    (∀ key : ECKey, env.keyGenResult = Except.ok key →
      env.marshalOk = true → env.keyWriteOk = true →
      (fs.hasDir dir || env.mkdirOk) = true → env.serialRandOk = false →
      getCerts env dir fs =
        Except.error "failed to generate random serial number") ∧
    (∀ key : ECKey, env.keyGenResult = Except.ok key →
      env.marshalOk = true → env.keyWriteOk = true →
      (fs.hasDir dir || env.mkdirOk) = true → env.serialRandOk = true →
      env.signOk = false →
      getCerts env dir fs =
        Except.error "failed to perform certificate generation") ∧
    (∀ key : ECKey, env.keyGenResult = Except.ok key →
      env.marshalOk = true → env.keyWriteOk = true →
      (fs.hasDir dir || env.mkdirOk) = true → env.serialRandOk = true →
      env.signOk = true → env.certWriteOk = false →
      getCerts env dir fs = Except.error "open server.crt: write failed") ∧
    (∀ key : ECKey, env.keyGenResult = Except.ok key →
      env.marshalOk = true → env.keyWriteOk = true →
      env.serialRandOk = true → env.signOk = true →
      env.certWriteOk = true → fs.hasDir dir = true →
      FS.mkdirErr fs dir env.mkdirOk = some "mkdir: file exists" ∧
      isOkE (getCerts env dir fs) = true) := by
  refine ⟨?_, ?_, ?_, ?_, ?_, ?_, ?_⟩
  · intro e hk
    simp [getCerts, generateKey, hk]
  · intro key hk hm
    simp [getCerts, generateKey, hk, hm]
  · intro key hk hm hw
    simp [getCerts, generateKey, hk, hm, hw]
  · intro key hk hm hw hd hs
    have hd1 : ((fs.mkdirFS dir env.mkdirOk).hasDir dir) = true := by
      rw [hasDir_mkdirFS]; exact hd
    simp [getCerts, generateKey, generateCert, hk, hm, hw, hs,
      hasDir_removeFile, hd1]
  · intro key hk hm hw hd hs hg
    have hd1 : ((fs.mkdirFS dir env.mkdirOk).hasDir dir) = true := by
      rw [hasDir_mkdirFS]; exact hd
    simp [getCerts, generateKey, generateCert, hk, hm, hw, hs, hg,
      hasDir_removeFile, hd1]
  · intro key hk hm hw hd hs hg hc
    have hd1 : ((fs.mkdirFS dir env.mkdirOk).hasDir dir) = true := by
      rw [hasDir_mkdirFS]; exact hd
    simp [getCerts, generateKey, generateCert, hk, hm, hw, hs, hg, hc,
      hasDir_removeFile, hasDir_setFile, hd1]
  · intro key hk hm hw hs hg hc hdir
    constructor
    · simp [FS.mkdirErr, hdir]
    · rw [getCerts_ok env dir fs key hk hm hw hs hg hc
        (by rw [hdir]; rfl)]
      rfl

/-- C5 witness: a concrete failing key generation propagates its error,
and a concrete mkdir failure on an existing directory is swallowed while
the call succeeds. -/
theorem c5_witness :
    envKeyGenFail.keyGenResult = Except.error "entropy source failed" ∧
    getCerts envKeyGenFail "certs" fsEmpty =
      Except.error "entropy source failed" ∧
    (FS.mkdirErr fsCertsDir "certs" goodEnv.mkdirOk =
      some "mkdir: file exists" ∧
      isOkE (getCerts goodEnv "certs" fsCertsDir) = true) :=
  ⟨rfl,
    (c5_generation_errors_propagate envKeyGenFail "certs" fsEmpty).1
      "entropy source failed" rfl,
    (c5_generation_errors_propagate goodEnv "certs" fsCertsDir).2.2.2.2.2.2
      ⟨1⟩ rfl rfl rfl rfl rfl rfl (by decide)⟩

/-- C6: after a successful ensure, both files hold exactly the pair
generated within that same call, and the written certificate embeds and is
signed by precisely the public counterpart of the key just persisted in
the key file. -/
theorem c6_matching_pair_written_together
    (env : GenEnv) (dir : String) (fs : FS) (cp kp : Path) (fs5 : FS)
    (h : getCerts env dir fs = Except.ok (cp, kp, fs5)) :
    ∃ (key : ECKey) (cert : Certificate),
      fs5.getFile kp = some ⟨FileContent.keyPEM key, mode0444⟩ ∧
      fs5.getFile cp = some ⟨FileContent.certPEM cert, mode0444⟩ ∧
      cert = newCert env key ∧
      parseKeyFile (FileContent.keyPEM key) = some key ∧
      cert.pub = key.publicKey ∧
      cert.signerD = key.d := by
  obtain ⟨key, hk, hcp, hkp, hfs⟩ := getCerts_ok_inv env dir fs cp kp fs5 h
  subst hcp; subst hkp; subst hfs
  exact ⟨key, newCert env key, (regenFS_getFiles env dir fs key).1,
    (regenFS_getFiles env dir fs key).2, rfl, rfl, rfl, rfl⟩

/-- C6 witness: the matching pair at a concrete successful call. -/
theorem c6_witness :
    getCerts goodEnv "certs" fsEmpty =
      Except.ok (⟨"certs", "server.crt"⟩, ⟨"certs", "server.key"⟩,
        fsAfter goodEnv "certs" fsEmpty) ∧
    (∃ (key : ECKey) (cert : Certificate),
      (fsAfter goodEnv "certs" fsEmpty).getFile ⟨"certs", "server.key"⟩ =
        some ⟨FileContent.keyPEM key, mode0444⟩ ∧
      (fsAfter goodEnv "certs" fsEmpty).getFile ⟨"certs", "server.crt"⟩ =
        some ⟨FileContent.certPEM cert, mode0444⟩ ∧
      cert = newCert goodEnv key ∧
      parseKeyFile (FileContent.keyPEM key) = some key ∧
      cert.pub = key.publicKey ∧
      cert.signerD = key.d) :=
  ⟨rfl, c6_matching_pair_written_together goodEnv "certs" fsEmpty
    ⟨"certs", "server.crt"⟩ ⟨"certs", "server.key"⟩
    (fsAfter goodEnv "certs" fsEmpty) rfl⟩

/-- C7 counterexample: the claim says the sampling range includes every
integer up to and including 2^63 - 1.  The code passes math.MaxInt64 =
2^63 - 1 as the exclusive bound of rand.Int, so the value 2^63 - 1 itself
is not attainable. -/
theorem c7_counterexample_top_serial_unattainable :
    ¬ serialAttainable (2 ^ 63 - 1) := by
  rintro ⟨e, he⟩
  have hlt : randInt e maxInt64 < maxInt64 :=
    Nat.mod_lt e (by decide)
  rw [he] at hlt
  simp [maxInt64] at hlt

/-- C7 (amended): every serial number produced by certificate generation
lies in the half-open interval from 0 to 2^63 - 1 (the exclusive bound
being math.MaxInt64, not 2^63), and every integer strictly below 2^63 - 1
is attainable. -/
theorem c7_serial_below_maxInt64 :
    (∀ (env : GenEnv) (certFile : Path) (key : ECKey) (fs : FS)
        (cert : Certificate) (fs5 : FS),
      generateCert env certFile key fs = Except.ok (cert, fs5) →
      cert.serialNumber < 2 ^ 63 - 1) ∧
    (∀ n : Nat, n < 2 ^ 63 - 1 → serialAttainable n) := by
  constructor
  · intro env certFile key fs cert fs5 h
    obtain ⟨hc, -⟩ := generateCert_ok_inv env certFile key fs cert fs5 h
    subst hc
    show randInt env.serialEntropy maxInt64 < 2 ^ 63 - 1
    have := Nat.mod_lt env.serialEntropy
      (show 0 < maxInt64 by decide)
    simpa [maxInt64, randInt] using this
  · intro n hn
    exact ⟨n, Nat.mod_eq_of_lt (by simpa [maxInt64] using hn)⟩

/-- C7 witness: a concrete successful generateCert call whose serial is
below 2^63 - 1, and a concrete attainable serial. -/
theorem c7_witness :
    generateCert goodEnv ⟨"certs", "server.crt"⟩ ⟨1⟩ fsCertsDir =
      Except.ok (newCert goodEnv ⟨1⟩,
        fsCertsDir.setFile ⟨"certs", "server.crt"⟩
          ⟨FileContent.certPEM (newCert goodEnv ⟨1⟩), mode0444⟩) ∧
    (newCert goodEnv ⟨1⟩).serialNumber < 2 ^ 63 - 1 ∧
    (5 < 2 ^ 63 - 1 ∧ serialAttainable 5) :=
  ⟨rfl,
    c7_serial_below_maxInt64.1 goodEnv ⟨"certs", "server.crt"⟩ ⟨1⟩
      fsCertsDir (newCert goodEnv ⟨1⟩)
      (fsCertsDir.setFile ⟨"certs", "server.crt"⟩
        ⟨FileContent.certPEM (newCert goodEnv ⟨1⟩), mode0444⟩) rfl,
    by decide,
    c7_serial_below_maxInt64.2 5 (by decide)⟩

/-- C8: every generated certificate has NotBefore strictly before the
generation time (ten minutes in the past) and NotAfter exactly one year
after the generation time. -/
theorem c8_validity_window
    (env : GenEnv) (certFile : Path) (key : ECKey) (fs : FS)
    (cert : Certificate) (fs5 : FS)
    (h : generateCert env certFile key fs = Except.ok (cert, fs5)) :
    GoTime.before cert.notBefore env.now = true ∧
    cert.notAfter = env.now.addYears 1 := by
  obtain ⟨hc, -⟩ := generateCert_ok_inv env certFile key fs cert fs5 h
  subst hc
  constructor
  · simp only [newCert, createCertificate, certTemplate, GoTime.before,
      GoTime.addMinutes, Bool.or_eq_true, Bool.and_eq_true,
      decide_eq_true_eq, beq_iff_eq]
    right
    exact ⟨by trivial, by omega⟩
  · rfl

/-- C8 witness: the validity window at a concrete generateCert call. -/
theorem c8_witness :
    generateCert goodEnv ⟨"certs", "server.crt"⟩ ⟨1⟩ fsCertsDir =
      Except.ok (newCert goodEnv ⟨1⟩,
        fsCertsDir.setFile ⟨"certs", "server.crt"⟩
          ⟨FileContent.certPEM (newCert goodEnv ⟨1⟩), mode0444⟩) ∧
    (GoTime.before (newCert goodEnv ⟨1⟩).notBefore goodEnv.now = true ∧
      (newCert goodEnv ⟨1⟩).notAfter = goodEnv.now.addYears 1) :=
  ⟨rfl, c8_validity_window goodEnv ⟨"certs", "server.crt"⟩ ⟨1⟩ fsCertsDir
    (newCert goodEnv ⟨1⟩)
    (fsCertsDir.setFile ⟨"certs", "server.crt"⟩
      ⟨FileContent.certPEM (newCert goodEnv ⟨1⟩), mode0444⟩) rfl⟩

/-- C9 counterexample: the claim says the key file mode denies read access
to anyone other than the owner.  The code writes the key with mode 0444,
which grants read access to the group and to others: after a concrete
successful call the key file carries mode 0444 and both non-owner triads
allow reading. -/
theorem c9_counterexample_world_readable :
    (fsAfter goodEnv "certs" fsEmpty).getFile ⟨"certs", "server.key"⟩ =
      some ⟨FileContent.keyPEM ⟨1⟩, mode0444⟩ ∧
    allowsRead (groupBits mode0444) = true ∧
    allowsRead (otherBits mode0444) = true := by
  decide

/-- C9 (amended): after every successful key persist the key file mode is
0444: write access is denied to everyone, and read access is granted to
everyone — owner, group and others — not only to the owner. -/
theorem c9_key_file_mode
    (env : GenEnv) (dir : String) (fs : FS) (cp kp : Path) (fs5 : FS)
    (h : getCerts env dir fs = Except.ok (cp, kp, fs5)) :
    ∃ fd : FileData, fs5.getFile kp = some fd ∧ fd.mode = mode0444 ∧
      allowsWrite (ownerBits fd.mode) = false ∧
      allowsWrite (groupBits fd.mode) = false ∧
      allowsWrite (otherBits fd.mode) = false ∧
      allowsRead (ownerBits fd.mode) = true ∧
      allowsRead (groupBits fd.mode) = true ∧
      allowsRead (otherBits fd.mode) = true := by
  obtain ⟨key, hk, hcp, hkp, hfs⟩ := getCerts_ok_inv env dir fs cp kp fs5 h
  subst hkp; subst hfs
  exact ⟨⟨FileContent.keyPEM key, mode0444⟩,
    (regenFS_getFiles env dir fs key).1, rfl,
    (show allowsWrite (ownerBits mode0444) = false by decide),
    (show allowsWrite (groupBits mode0444) = false by decide),
    (show allowsWrite (otherBits mode0444) = false by decide),
    (show allowsRead (ownerBits mode0444) = true by decide),
    (show allowsRead (groupBits mode0444) = true by decide),
    (show allowsRead (otherBits mode0444) = true by decide)⟩

/-- C9 witness: the mode facts at a concrete successful call. -/
theorem c9_witness :
    getCerts goodEnv "certs" fsEmpty =
      Except.ok (⟨"certs", "server.crt"⟩, ⟨"certs", "server.key"⟩,
        fsAfter goodEnv "certs" fsEmpty) ∧
    (∃ fd : FileData,
      (fsAfter goodEnv "certs" fsEmpty).getFile ⟨"certs", "server.key"⟩ =
        some fd ∧ fd.mode = mode0444 ∧
      allowsWrite (ownerBits fd.mode) = false ∧
      allowsWrite (groupBits fd.mode) = false ∧
      allowsWrite (otherBits fd.mode) = false ∧
      allowsRead (ownerBits fd.mode) = true ∧
      allowsRead (groupBits fd.mode) = true ∧
      allowsRead (otherBits fd.mode) = true) :=
  ⟨rfl, c9_key_file_mode goodEnv "certs" fsEmpty
    ⟨"certs", "server.crt"⟩ ⟨"certs", "server.key"⟩
    (fsAfter goodEnv "certs" fsEmpty) rfl⟩

/-- C10: the SAN-aware entry point generateCerts returns an error for
every input, because certExists returns false for all arguments; it never
returns certificate and key paths successfully. -/
theorem c10_generateCerts_always_errors :
    ∀ (dir : String) (extraSans : List String),
      generateCerts dir extraSans = Except.error "todo: generate certs" :=
  fun _ _ => rfl

end ImprovedEngine
